import Mathlib

/-!
Verification of the static-site data loader of `neuralake`
(`src/client/neuralake/export/static_site/src/lib/data.ts`):

```ts
// (the module first does: `import ... ExportedNeuralake ... from './types'`)
const response = await fetch('/data.json')
if (!response.ok) \x7b
  throw new Error(`Failed to load data: $\x7bresponse.statusText\x7d`)
\x7d

export const neuralake = await response.json() as ExportedNeuralake
```

The module issues one `fetch` of the fixed path `/data.json` at module-load
time, throws `Error("Failed to load data: " + statusText)` when the response
status is not in the 200-299 range, and otherwise exposes the body parsed as
JSON (`response.json()`), unvalidated, as the constant `neuralake`.

We embed the platform pieces the module relies on: an HTTP `Response`
(status, statusText, body) with the WHATWG `Response.ok` predicate
(status 200-299), a JSON value type and a parser playing the role of the
platform `JSON.parse` used by `response.json()`, and `fetch` as an
environment function from requests to responses.
-/

/-- JSON values, as produced by the platform JSON parser used by
`response.json()`. A number is kept exactly as `mantissa * 10 ^ exponent`. -/
inductive Json where
  | null : Json
  | bool (b : Bool) : Json
  | num (mantissa : Int) (exponent : Int) : Json
  | str (s : String) : Json
  | arr (elems : List Json) : Json
  | obj (fields : List (String × Json)) : Json

/-- The character `{`. -/
def lbrace : Char := Char.ofNat 123

/-- The character `}`. -/
def rbrace : Char := Char.ofNat 125

/-- Drop leading JSON whitespace (space, tab, line feed, carriage return). -/
def skipWs : List Char → List Char
  | c :: cs =>
    if c = ' ' ∨ c = '\t' ∨ c = '\n' ∨ c = '\r' then skipWs cs else c :: cs
  | [] => []

/-- Split off a maximal run of leading decimal digits. -/
def splitDigits (cs : List Char) : List Char × List Char :=
  (cs.takeWhile Char.isDigit, cs.dropWhile Char.isDigit)

/-- Decimal value of a digit run. -/
def digitsToNat (ds : List Char) : Nat :=
  ds.foldl (fun acc c => 10 * acc + (c.toNat - 48)) 0

/-- Value of a hexadecimal digit, if any. -/
def hexVal (c : Char) : Option Nat :=
  if c.isDigit then some (c.toNat - 48)
  else if 'a' ≤ c ∧ c ≤ 'f' then some (c.toNat - 97 + 10)
  else if 'A' ≤ c ∧ c ≤ 'F' then some (c.toNat - 65 + 10)
  else none

/-- Parse the characters of a JSON string after the opening quote, handling
escape sequences; returns the string contents and the input after the
closing quote. -/
def parseStringChars : List Char → Except String (List Char × List Char)
  | [] => .error "Unterminated string in JSON"
  | c :: cs =>
    if c = '"' then .ok ([], cs)
    else if c = '\\' then
      match cs with
      | [] => .error "Unterminated string in JSON"
      | e :: cs2 =>
        if e = '"' ∨ e = '\\' ∨ e = '/' then
          (parseStringChars cs2).map (fun p => (e :: p.1, p.2))
        else if e = 'b' then
          (parseStringChars cs2).map (fun p => (Char.ofNat 8 :: p.1, p.2))
        else if e = 'f' then
          (parseStringChars cs2).map (fun p => (Char.ofNat 12 :: p.1, p.2))
        else if e = 'n' then
          (parseStringChars cs2).map (fun p => ('\n' :: p.1, p.2))
        else if e = 'r' then
          (parseStringChars cs2).map (fun p => ('\r' :: p.1, p.2))
        else if e = 't' then
          (parseStringChars cs2).map (fun p => ('\t' :: p.1, p.2))
        else if e = 'u' then
          match cs2 with
          | h1 :: h2 :: h3 :: h4 :: cs3 =>
            match hexVal h1, hexVal h2, hexVal h3, hexVal h4 with
            | some v1, some v2, some v3, some v4 =>
              (parseStringChars cs3).map
                (fun p =>
                  (Char.ofNat (((v1 * 16 + v2) * 16 + v3) * 16 + v4) :: p.1,
                   p.2))
            | _, _, _, _ => .error "Bad Unicode escape in JSON"
          | _ => .error "Bad Unicode escape in JSON"
        else .error "Bad escaped character in JSON"
    else (parseStringChars cs).map (fun p => (c :: p.1, p.2))

/-- Parse an optional exponent part (`e`/`E`, optional sign, digits). -/
def parseExpPart (cs : List Char) : Except String (Int × List Char) :=
  match cs with
  | c :: r =>
    if c = 'e' ∨ c = 'E' then
      let sr : Int × List Char :=
        match r with
        | s :: r2 => if s = '-' then (-1, r2) else if s = '+' then (1, r2) else (1, r)
        | [] => (1, r)
      let (expDs, r3) := splitDigits sr.2
      if expDs.isEmpty then .error "Exponent part is missing a number in JSON"
      else .ok (sr.1 * (digitsToNat expDs : Int), r3)
    else .ok (0, cs)
  | [] => .ok (0, [])

/-- Parse an optional fraction part (`.` followed by digits). -/
def parseFracPart (cs : List Char) : Except String (List Char × List Char) :=
  match cs with
  | '.' :: r =>
    let (ds, r2) := splitDigits r
    if ds.isEmpty then .error "Unterminated fractional number in JSON"
    else .ok (ds, r2)
  | _ => .ok ([], cs)

/-- Parse a JSON number (optional minus, integer part without leading zeros,
optional fraction, optional exponent). -/
def parseNumber (cs0 : List Char) : Except String (Json × List Char) :=
  let sr : Int × List Char :=
    match cs0 with
    | '-' :: r => (-1, r)
    | _ => (1, cs0)
  let (intDs, cs2) := splitDigits sr.2
  if intDs.isEmpty then .error "Unexpected token in JSON"
  else if 1 < intDs.length ∧ intDs.head? = some '0' then
    .error "Unexpected number in JSON"
  else
    match parseFracPart cs2 with
    | .error e => .error e
    | .ok (fracDs, cs3) =>
      match parseExpPart cs3 with
      | .error e => .error e
      | .ok (ex, cs4) =>
        .ok (.num (sr.1 * (digitsToNat (intDs ++ fracDs) : Int))
               (ex - fracDs.length), cs4)

mutual

/-- Parse one JSON value; `fuel` bounds the nesting depth (each recursive
step consumes at least one input character, so `length + 1` fuel suffices).
Returns the value and the remaining input. -/
def parseValue : Nat → List Char → Except String (Json × List Char)
  | 0, _ => .error "Unexpected end of JSON input"
  | fuel + 1, cs =>
    match skipWs cs with
    | [] => .error "Unexpected end of JSON input"
    | c :: rest =>
      if c = 'n' then
        match rest with
        | 'u' :: 'l' :: 'l' :: r => .ok (.null, r)
        | _ => .error "Unexpected token in JSON"
      else if c = 't' then
        match rest with
        | 'r' :: 'u' :: 'e' :: r => .ok (.bool true, r)
        | _ => .error "Unexpected token in JSON"
      else if c = 'f' then
        match rest with
        | 'a' :: 'l' :: 's' :: 'e' :: r => .ok (.bool false, r)
        | _ => .error "Unexpected token in JSON"
      else if c = '"' then
        (parseStringChars rest).map (fun p => (.str (String.mk p.1), p.2))
      else if c = '[' then
        let rest2 := skipWs rest
        if rest2.head? = some ']' then .ok (.arr [], rest2.tail)
        else (parseArrayItems fuel rest2).map (fun p => (.arr p.1, p.2))
      else if c = lbrace then
        let rest2 := skipWs rest
        if rest2.head? = some rbrace then .ok (.obj [], rest2.tail)
        else (parseObjItems fuel rest2).map (fun p => (.obj p.1, p.2))
      else if c = '-' ∨ c.isDigit then parseNumber (c :: rest)
      else .error "Unexpected token in JSON"

/-- Parse the comma-separated items of a non-empty JSON array, up to and
including the closing bracket. -/
def parseArrayItems : Nat → List Char → Except String (List Json × List Char)
  | 0, _ => .error "Unexpected end of JSON input"
  | fuel + 1, cs =>
    match parseValue fuel cs with
    | .error e => .error e
    | .ok (j, rest) =>
      match skipWs rest with
      | ',' :: r => (parseArrayItems fuel r).map (fun p => (j :: p.1, p.2))
      | ']' :: r => .ok ([j], r)
      | _ => .error "Expected comma or closing bracket after array element in JSON"

/-- Parse the comma-separated members of a non-empty JSON object, up to and
including the closing brace. -/
def parseObjItems : Nat → List Char → Except String (List (String × Json) × List Char)
  | 0, _ => .error "Unexpected end of JSON input"
  | fuel + 1, cs =>
    match skipWs cs with
    | c :: r =>
      if c = '"' then
        match parseStringChars r with
        | .error e => .error e
        | .ok (key, r1) =>
          match skipWs r1 with
          | ':' :: r2 =>
            match parseValue fuel r2 with
            | .error e => .error e
            | .ok (v, r3) =>
              match skipWs r3 with
              | d :: r4 =>
                if d = ',' then
                  (parseObjItems fuel r4).map
                    (fun p => ((String.mk key, v) :: p.1, p.2))
                else if d = rbrace then .ok ([(String.mk key, v)], r4)
                else .error "Expected comma or closing brace after object member in JSON"
              | [] => .error "Unexpected end of JSON input"
          | _ => .error "Expected colon after property name in JSON"
      else .error "Expected property name in JSON"
    | [] => .error "Unexpected end of JSON input"

end

/-- The platform JSON parser applied by `response.json()` to the body text:
parse one JSON value and demand that only whitespace follows it. -/
def parseJson (s : String) : Except String Json :=
  match parseValue (s.length + 1) s.data with
  | .error e => .error e
  | .ok (j, rest) =>
    match skipWs rest with
    | [] => .ok j
    | _ => .error "Unexpected non-whitespace character after JSON data"

/-- An HTTP response as observed by the module: status code, status text and
body text. -/
structure Response where
  status : Nat
  statusText : String
  body : String

/-- The WHATWG fetch `Response.ok` getter: the status code lies in the
200-299 range. -/
def Response.ok (r : Response) : Bool :=
  decide (200 ≤ r.status ∧ r.status ≤ 299)

/-- The ways the module-load can fail: the explicit
`throw new Error("Failed to load data: " + statusText)` on a non-ok
response (`transport`), or the syntax error propagated from
`response.json()` on an invalid body (`parse`). -/
inductive LoadError where
  | transport (message : String) : LoadError
  | parse (message : String) : LoadError

/-- Whether an error is the transport-failure kind, the one the module's own
`throw` produces. -/
def LoadError.isTransport : LoadError → Bool
  | .transport _ => true
  | .parse _ => false

/-- The body of `data.ts` applied to the fetched response:
`if (!response.ok) throw new Error(...)` and then
`await response.json()`. An `Except.ok` value is the exported binding, an
`Except.error` the exception the module evaluation throws. -/
def loadData (r : Response) : Except LoadError Json :=
  if r.ok then
    match parseJson r.body with
    | .ok j => .ok j
    | .error e => .error (.parse e)
  else
    .error (.transport ("Failed to load data: " ++ r.statusText))

/-- An HTTP request as issued by `fetch`. -/
structure Request where
  method : String
  url : String
  headers : List (String × String)
  auth : Option String

/-- The one request of the module, `fetch('/data.json')`: a string argument
and no init object mean method GET, no headers and no authentication. -/
def moduleRequest : Request :=
  { method := "GET", url := "/data.json", headers := [], auth := none }

/-- What one evaluation of the `data.ts` module produces: the network
requests it issued and its outcome (the exported `neuralake` value, or the
error thrown during module evaluation). -/
structure ModuleResult where
  requests : List Request
  outcome : Except LoadError Json

/-- Evaluate the module against a fetch environment `fetchEnv` mapping
requests to responses: issue the single `fetch('/data.json')` and run the
response through the status check and the JSON parse. -/
def runModule (fetchEnv : Request → Response) : ModuleResult :=
  { requests := [moduleRequest], outcome := loadData (fetchEnv moduleRequest) }

/-- The exported binding `neuralake` (as an `Except`: on error the module
throws and exports nothing). -/
def neuralake (fetchEnv : Request → Response) : Except LoadError Json :=
  (runModule fetchEnv).outcome

/-- Reading the exported `const neuralake` binding: an ES-module import read
returns the already-resolved bound value and issues no network request. -/
def readExport (m : ModuleResult) : Except LoadError Json × List Request :=
  (m.outcome, [])

/-- `k` successive reads of the exported binding. -/
def readTimes (m : ModuleResult) (k : Nat) :
    List (Except LoadError Json × List Request) :=
  List.replicate k (readExport m)

/-- Helper: a response with a 2xx status is `ok`. -/
theorem ok_of_2xx (r : Response) (h : 200 ≤ r.status ∧ r.status ≤ 299) :
    r.ok = true := by
  simp only [Response.ok, decide_eq_true_eq]
  exact h

/-- Helper: a response without a 2xx status is not `ok`. -/
theorem not_ok_of_not_2xx (r : Response) (h : ¬(200 ≤ r.status ∧ r.status ≤ 299)) :
    r.ok = false := by
  simp only [Response.ok, decide_eq_false_iff_not]
  exact h

/-- Helper: on a response that is not `ok`, the loader throws the transport
error with the concatenated message. -/
theorem loadData_of_not_ok (r : Response) (h : r.ok = false) :
    loadData r = .error (.transport ("Failed to load data: " ++ r.statusText)) := by
  simp [loadData, h]

/-- C1: for every response with a success status (2xx) whose body is valid
JSON, the exposed `neuralake` value is exactly the result of parsing the
body as JSON, for any parsed value whatsoever (no schema validation). -/
theorem c1_success_yields_parsed_json (fetchEnv : Request → Response) (j : Json)
    (h2xx : 200 ≤ (fetchEnv moduleRequest).status ∧
      (fetchEnv moduleRequest).status ≤ 299)
    (hjson : parseJson (fetchEnv moduleRequest).body = .ok j) :
    neuralake fetchEnv = .ok j := by
  have hok := ok_of_2xx _ h2xx
  simp [neuralake, runModule, loadData, hok, hjson]

/-- C1 witness: a status-200 response with body `{"tables": []}` makes the
exposed value the object with the single field `tables` holding `[]`. -/
theorem c1_witness :
    ((200 ≤ 200 ∧ 200 ≤ 299) ∧
      parseJson "\x7b\"tables\": []\x7d" = .ok (Json.obj [("tables", Json.arr [])])) ∧
    neuralake (fun _ => ⟨200, "OK", "\x7b\"tables\": []\x7d"⟩) =
      .ok (Json.obj [("tables", Json.arr [])]) :=
  ⟨⟨by decide, rfl⟩,
    c1_success_yields_parsed_json (fun _ => ⟨200, "OK", "\x7b\"tables\": []\x7d"⟩)
      (Json.obj [("tables", Json.arr [])]) ⟨by decide, by decide⟩ rfl⟩

/-- C2: for every response with a non-2xx status, the loader throws an error
of the transport kind whose message contains the response's status text. -/
theorem c2_non2xx_message_contains_status_text (r : Response)
    (h : ¬(200 ≤ r.status ∧ r.status ≤ 299)) :
    ∃ pre post, loadData r = .error (.transport (pre ++ r.statusText ++ post)) := by
  have hok := not_ok_of_not_2xx _ h
  refine ⟨"Failed to load data: ", "", ?_⟩
  simp [loadData, hok]

/-- C2 witness: a status-404 response with status text "Not Found" produces a
transport error whose message contains "Not Found". -/
theorem c2_witness :
    ¬(200 ≤ 404 ∧ 404 ≤ 299) ∧
    ∃ pre post, loadData ⟨404, "Not Found", ""⟩ =
      .error (.transport (pre ++ "Not Found" ++ post)) :=
  ⟨by decide,
    c2_non2xx_message_contains_status_text ⟨404, "Not Found", ""⟩ (by decide)⟩

/-- C8: for every response that is not `ok`, the error message is exactly the
string "Failed to load data: " concatenated with the status text. -/
theorem c8_error_message_exact (r : Response) (h : r.ok = false) :
    loadData r = .error (.transport ("Failed to load data: " ++ r.statusText)) :=
  loadData_of_not_ok r h

/-- C8 witness: at status 404 / "Not Found" the message is exactly
"Failed to load data: Not Found". -/
theorem c8_witness :
    Response.ok ⟨404, "Not Found", ""⟩ = false ∧
    loadData ⟨404, "Not Found", ""⟩ =
      .error (.transport "Failed to load data: Not Found") :=
  ⟨by decide, c8_error_message_exact ⟨404, "Not Found", ""⟩ (by decide)⟩

/-- C3 counterexample: a status-200 response with the non-JSON body
"not json" makes the loader fail with an error that is not of the
transport-failure kind, so transport failure is not the loader's only error
kind. -/
theorem c3_counterexample :
    loadData ⟨200, "OK", "not json"⟩ =
      .error (.parse "Unexpected token in JSON") ∧
    (LoadError.parse "Unexpected token in JSON").isTransport = false :=
  ⟨rfl, rfl⟩

/-- C3 (amended): every error the loader raises is of the transport-failure
kind if and only if the HTTP response indicates non-success; the only other
raised errors are parse errors propagated from the body parser. -/
theorem c3_transport_iff_not_ok (r : Response) (e : LoadError)
    (h : loadData r = .error e) : e.isTransport = true ↔ r.ok = false := by
  cases hok : r.ok with
  | false =>
    rw [loadData_of_not_ok r hok] at h
    obtain rfl : LoadError.transport ("Failed to load data: " ++ r.statusText) = e :=
      by injection h
    simp [LoadError.isTransport]
  | true =>
    simp only [loadData, hok, if_true] at h
    cases hp : parseJson r.body with
    | ok j => rw [hp] at h; simp at h
    | error msg =>
      rw [hp] at h
      obtain rfl : LoadError.parse msg = e := by injection h
      simp [LoadError.isTransport]

/-- C3 witness: at status 404 the raised error is the transport kind and the
response is not ok. -/
theorem c3_witness :
    loadData ⟨404, "Not Found", ""⟩ =
      .error (.transport "Failed to load data: Not Found") ∧
    ((LoadError.transport "Failed to load data: Not Found").isTransport = true ↔
      Response.ok ⟨404, "Not Found", ""⟩ = false) :=
  ⟨rfl, c3_transport_iff_not_ok ⟨404, "Not Found", ""⟩ _ rfl⟩

/-- C4: for every response with status 200 whose body is not valid JSON, the
loader fails with the parse error from the body parser, propagated to the
caller. -/
theorem c4_parse_error_propagated (r : Response) (e : String)
    (h200 : r.status = 200) (hbad : parseJson r.body = .error e) :
    loadData r = .error (.parse e) := by
  have hok : r.ok = true := ok_of_2xx r (by omega)
  simp [loadData, hok, hbad]

/-- C4 witness: a status-200 response with body "not json" fails with the
propagated parse error. -/
theorem c4_witness :
    ((⟨200, "OK", "not json"⟩ : Response).status = 200 ∧
      parseJson "not json" = .error "Unexpected token in JSON") ∧
    loadData ⟨200, "OK", "not json"⟩ =
      .error (.parse "Unexpected token in JSON") :=
  ⟨⟨rfl, rfl⟩,
    c4_parse_error_propagated ⟨200, "OK", "not json"⟩ "Unexpected token in JSON"
      rfl rfl⟩

/-- C5: the loader treats a response as transport-successful exactly when its
status is in the 200-299 range, and for any status outside that range it
fails at once with the transport error carrying the status description (a
plain error value: no retry, no fallback, no partial result). -/
theorem c5_ok_iff_2xx (r : Response) :
    (r.ok = true ↔ (200 ≤ r.status ∧ r.status ≤ 299)) ∧
    (¬(200 ≤ r.status ∧ r.status ≤ 299) →
      loadData r = .error (.transport ("Failed to load data: " ++ r.statusText))) := by
  refine ⟨by simp [Response.ok], fun h => ?_⟩
  exact loadData_of_not_ok r (not_ok_of_not_2xx r h)

/-- C5 witness: at status 500 the response is outside 200-299 and the loader
fails with the transport error carrying the status description. -/
theorem c5_witness :
    (Response.ok ⟨500, "Internal Server Error", ""⟩ = true ↔
      (200 ≤ 500 ∧ 500 ≤ 299)) ∧
    loadData ⟨500, "Internal Server Error", ""⟩ =
      .error (.transport "Failed to load data: Internal Server Error") :=
  ⟨(c5_ok_iff_2xx ⟨500, "Internal Server Error", ""⟩).1,
    (c5_ok_iff_2xx ⟨500, "Internal Server Error", ""⟩).2 (by decide)⟩

/-- C6: every evaluation of the module issues exactly one network request,
the fixed GET of `/data.json` with no headers, no query string and no
authentication, regardless of the fetch environment. -/
theorem c6_single_fixed_get (fetchEnv : Request → Response) :
    (runModule fetchEnv).requests = [moduleRequest] ∧
    moduleRequest.method = "GET" ∧
    moduleRequest.url = "/data.json" ∧
    moduleRequest.headers = [] ∧
    moduleRequest.auth = none ∧
    '?' ∉ moduleRequest.url.data ∧
    ∀ fetchEnv2 : Request → Response,
      (runModule fetchEnv2).requests = (runModule fetchEnv).requests :=
  ⟨rfl, rfl, rfl, rfl, rfl, by decide, fun _ => rfl⟩

/-- C7: after a successful load, every one of any number of reads of the
exported binding yields the same already-resolved value and issues no
network request, while the module itself issued exactly the one
initialization-time request. -/
theorem c7_reads_stable_one_fetch (fetchEnv : Request → Response) (j : Json)
    (k : Nat) (h : neuralake fetchEnv = .ok j) :
    readTimes (runModule fetchEnv) k = List.replicate k (Except.ok j, []) ∧
    (runModule fetchEnv).requests = [moduleRequest] := by
  have h' : (runModule fetchEnv).outcome = Except.ok j := h
  exact ⟨by simp [readTimes, readExport, h'], rfl⟩

/-- C7 witness: with a 200 response whose body is `[]`, two reads both yield
`[]` with no further request, and one request was issued. -/
theorem c7_witness :
    neuralake (fun _ => ⟨200, "OK", "[]"⟩) = .ok (Json.arr []) ∧
    readTimes (runModule (fun _ => ⟨200, "OK", "[]"⟩)) 2 =
      List.replicate 2 (Except.ok (Json.arr []), []) ∧
    (runModule (fun _ => ⟨200, "OK", "[]"⟩)).requests = [moduleRequest] :=
  ⟨rfl,
    (c7_reads_stable_one_fetch (fun _ => ⟨200, "OK", "[]"⟩) (Json.arr []) 2 rfl).1,
    (c7_reads_stable_one_fetch (fun _ => ⟨200, "OK", "[]"⟩) (Json.arr []) 2 rfl).2⟩

/-- C9: whenever the load fails (non-ok status, or a body that is not valid
JSON), the module evaluation ends in an error, so the exported binding is
never created and no partial or default value can be observed. -/
theorem c9_no_value_on_failure (fetchEnv : Request → Response)
    (h : (fetchEnv moduleRequest).ok = false ∨
      ∃ e, parseJson (fetchEnv moduleRequest).body = .error e) :
    ∃ e, neuralake fetchEnv = .error e := by
  rcases h with hok | ⟨e, he⟩
  · exact ⟨_, loadData_of_not_ok _ hok⟩
  · cases hok : (fetchEnv moduleRequest).ok with
    | false => exact ⟨_, loadData_of_not_ok _ hok⟩
    | true =>
      exact ⟨.parse e, by simp [neuralake, runModule, loadData, hok, he]⟩

/-- C9 witness: with a 200 response whose body is "oops" the module ends in
an error and exposes no value. -/
theorem c9_witness :
    parseJson "oops" = .error "Unexpected token in JSON" ∧
    ∃ e, neuralake (fun _ => ⟨200, "OK", "oops"⟩) = .error e :=
  ⟨rfl,
    c9_no_value_on_failure (fun _ => ⟨200, "OK", "oops"⟩)
      (Or.inr ⟨"Unexpected token in JSON", rfl⟩)⟩

/-- Helper: two responses agreeing on status, status text and body are
equal. -/
theorem Response.eq_of_fields (a b : Response) (hs : a.status = b.status)
    (ht : a.statusText = b.statusText) (hb : a.body = b.body) : a = b := by
  cases a
  cases b
  simp_all

/-- C10: the module is deterministic in the response: two evaluations whose
fetch environments answer the module's request with the same status, status
text and body produce identical results (same requests, same exposed value
or same error). -/
theorem c10_deterministic_in_response (env1 env2 : Request → Response)
    (hs : (env1 moduleRequest).status = (env2 moduleRequest).status)
    (ht : (env1 moduleRequest).statusText = (env2 moduleRequest).statusText)
    (hb : (env1 moduleRequest).body = (env2 moduleRequest).body) :
    runModule env1 = runModule env2 := by
  have hr := Response.eq_of_fields (env1 moduleRequest) (env2 moduleRequest) hs ht hb
  simp [runModule, hr]

/-- C10 witness: two different fetch environments that agree on the module's
one request produce identical module results. -/
theorem c10_witness :
    runModule (fun _ => ⟨404, "Not Found", "x"⟩) =
      runModule (fun q =>
        if q.url = "/data.json" then ⟨404, "Not Found", "x"⟩
        else ⟨500, "Internal Server Error", "y"⟩) :=
  c10_deterministic_in_response _ _ rfl rfl rfl
